import Mathlib

/-!
Shallow embedding of the airline-booking service (FastAPI + SQLAlchemy).

The data model follows `src/app/models.py`; the operations follow the route
handlers in `src/app/routers/` (`bookings.py`, `flights.py`, `users.py`,
`airports.py`) and the auth helpers in `src/app/dependencies.py`.

Database state is a record of tables (lists of rows).  Each handler becomes a
pure function `DB → ... → Except HTTPError α × DB`; an `Except.error` outcome
pairs with the unchanged database, mirroring the `db.rollback()` performed by
every handler on failure.  Passenger rows are stored nested inside their
booking, which is the ORM relationship view (`booking.passengers`) used by the
handlers themselves; the `BookingID` foreign key is kept on each row.
`DECIMAL` money columns are modelled as `Int` (exact fixed-point values),
SQL `INTEGER` counters as `Int` so that under- and overflow of the seat
counter are representable, and datetime columns as opaque strings since no
handler computes with them.
-/

namespace AirlineBooking

/-- HTTP error as raised by `fastapi.HTTPException`. -/
structure HTTPError where
  status_code : Nat
  detail : String
deriving DecidableEq, Repr

/-- Row of the `Airports` table (`models.py`, class `Airport`). -/
structure Airport where
  AirportID : Nat
  IATACode : String
  Name : String
  City : String
  Country : String
  TimeZone : Option String
deriving DecidableEq, Repr

/-- Row of the `Aircraft` table (`models.py`, class `Aircraft`). -/
structure Aircraft where
  AircraftID : Nat
  ModelCode : String
  Manufacturer : Option String
  TotalSeats : Int
  Range_km : Option Int
deriving DecidableEq, Repr

/-- A `DATETIMEOFFSET` value, split so that the SQL `CAST(.. AS Date)` used by
`search_flights` is the `date` component. -/
structure DateTimeOffset where
  date : String
  time : String
  offset : String
deriving DecidableEq, Repr

/-- Row of the `Flights` table (`models.py`, class `Flight`). -/
structure Flight where
  FlightID : Nat
  FlightNumber : String
  DepartureAirportID : Nat
  ArrivalAirportID : Nat
  AircraftID : Nat
  DepartureDateTime : DateTimeOffset
  ArrivalDateTime : DateTimeOffset
  BasePrice : Int
  Status : String
deriving DecidableEq, Repr

/-- Row of the `FlightInventory` table (`models.py`, class `FlightInventory`). -/
structure FlightInventory where
  InventoryID : Nat
  FlightID : Nat
  ClassCode : String
  BaseFare : Int
  TotalSeats : Int
  SeatsBooked : Int
  IsRefundable : Bool
deriving DecidableEq, Repr

/-- A bcrypt hash as produced by `passlib`'s `CryptContext.hash`: the stored
string embeds the salt next to the digest; `verify` re-derives the digest from
the stored salt.  The hash primitive itself is an external library and is kept
as an explicit function parameter `bcrypt : salt → password → digest`. -/
structure BcryptHash where
  salt : String
  digest : String
deriving DecidableEq, Repr

/-- Row of the `Users` table (`models.py`, class `User`).  Note: the model
declares no `IsAdmin` column, although `schemas.UserRead` and
`dependencies.get_admin_user` both expect one. -/
structure User where
  UserID : Nat
  Email : String
  HashedPassword : BcryptHash
  FirstName : String
  LastName : String
  PhoneNumber : Option String
  DateOfBirth : Option String
  CreatedDate : String
deriving DecidableEq, Repr

/-- Row of the `Passengers` table (`models.py`, class `Passenger`). -/
structure Passenger where
  PassengerID : Nat
  BookingID : Nat
  InventoryID : Nat
  FirstName : String
  LastName : String
  DateOfBirth : String
  PassportNumber : Option String
  SeatNumber : Option String
deriving DecidableEq, Repr

/-- Row of the `Bookings` table (`models.py`, class `Booking`), carrying its
`passengers` relationship. -/
structure Booking where
  BookingID : Nat
  PNR : String
  UserID : Nat
  FlightID : Nat
  BookingDate : String
  TotalAmount : Int
  PaymentStatus : String
  BookingStatus : String
  passengers : List Passenger
deriving DecidableEq, Repr

/-- The relational store.  The `next*` counters model the database's
auto-increment primary-key generators. -/
structure DB where
  airports : List Airport
  aircrafts : List Aircraft
  flights : List Flight
  inventories : List FlightInventory
  users : List User
  bookings : List Booking
  nextFlightID : Nat
  nextInventoryID : Nat
  nextUserID : Nat
  nextBookingID : Nat
  nextPassengerID : Nat
deriving DecidableEq, Repr

/-- Update the first element satisfying `p` (the row returned by a SQLAlchemy
`.filter(..).first()` query and then mutated in place), leaving the rest. -/
def updateFirst (p : α → Bool) (f : α → α) : List α → List α
  | [] => []
  | x :: xs => if p x then f x :: xs else x :: updateFirst p f xs

/-- Function `gen_seat_label` from `bookings.py`: `row = index // 6 + 1`;
`letter = ["A","B","C","D","E","F"][index % 6]`; result `f"{row}{letter}"`.
Python `//` is floor division and `%` a non-negative remainder, i.e.
`Int.fdiv` and `Int.emod`. -/
def gen_seat_label (index : Int) : String :=
  let row := index.fdiv 6 + 1
  let letter := ["A", "B", "C", "D", "E", "F"].getD (index.emod 6).toNat ""
  toString row ++ letter

/-- Schema `schemas.PassengerBase`: one passenger record of a booking request. -/
structure PassengerCreate where
  FirstName : String
  LastName : String
  DateOfBirth : String
  PassportNumber : Option String
  SeatNumber : Option String
  InventoryID : Nat
deriving DecidableEq, Repr

/-- Schema `schemas.BookingCreate`: body of `POST /bookings`. -/
structure BookingCreate where
  passengers : List PassengerCreate
deriving DecidableEq, Repr

/-- The passenger rows inserted by the loop in `create_booking`: the `i`-th
input passenger gets primary key `pid + i` and seat label
`gen_seat_label (seatsBooked + i)`, where `seatsBooked` is the inventory
row's counter as read at booking time (it is only incremented after the
loop). -/
def mkPassengers (bid : Nat) (seatsBooked : Int) :
    Nat → Nat → List PassengerCreate → List Passenger
  | _, _, [] => []
  | pid, i, p :: rest =>
    { PassengerID := pid
      BookingID := bid
      InventoryID := p.InventoryID
      FirstName := p.FirstName
      LastName := p.LastName
      DateOfBirth := p.DateOfBirth
      PassportNumber := p.PassportNumber
      SeatNumber := some (gen_seat_label (seatsBooked + i)) } ::
      mkPassengers bid seatsBooked (pid + 1) (i + 1) rest

/-- Handler of `POST /bookings` (`bookings.py`, `create_booking`).  `pnr` stands for the
`uuid4`-derived reference drawn inside the handler and `now` for
`datetime.utcnow()`.  An `Except.error` result pairs with the unchanged
database: every failure path raises before `db.commit()` and the handler's
`except` clause rolls back.  An empty passenger list passes the set-size
check but crashes on `passengers[0]` (an `IndexError` surfaced as a 500). -/
def create_booking (db : DB) (userID : Nat) (bookingIn : BookingCreate)
    (pnr : String) (now : String) : Except HTTPError Booking × DB :=
  if ((bookingIn.passengers.map (·.InventoryID)).dedup).length > 1 then
    (.error ⟨400, "All passengers in a single booking must be on the same flight/class"⟩, db)
  else
    match bookingIn.passengers with
    | [] => (.error ⟨500, "Booking failed: list index out of range"⟩, db)
    | p0 :: _ =>
      match db.inventories.find? (fun inv => inv.InventoryID == p0.InventoryID) with
      | none => (.error ⟨404, "FlightInventory/Class not found"⟩, db)
      | some inventory_item =>
        let num_passengers := bookingIn.passengers.length
        let available_seats := inventory_item.TotalSeats - inventory_item.SeatsBooked
        if available_seats < (num_passengers : Int) then
          (.error ⟨400, "Only " ++ toString available_seats ++ " seats left!"⟩, db)
        else
          let calculated_total := inventory_item.BaseFare * (num_passengers : Int)
          let new_booking : Booking :=
            { BookingID := db.nextBookingID
              PNR := pnr
              UserID := userID
              FlightID := inventory_item.FlightID
              BookingDate := now
              TotalAmount := calculated_total
              BookingStatus := "Confirmed"
              PaymentStatus := "Pending"
              passengers :=
                mkPassengers db.nextBookingID inventory_item.SeatsBooked
                  db.nextPassengerID 0 bookingIn.passengers }
          (.ok new_booking,
            { db with
              bookings := db.bookings ++ [new_booking]
              inventories :=
                updateFirst (fun inv => inv.InventoryID == p0.InventoryID)
                  (fun inv => { inv with SeatsBooked := inv.SeatsBooked + (num_passengers : Int) })
                  db.inventories
              nextBookingID := db.nextBookingID + 1
              nextPassengerID := db.nextPassengerID + num_passengers })

/-- Handler of `PUT /bookings/\x7bpnr\x7d/cancel` (`bookings.py`, `cancel_booking`). -/
def cancel_booking (db : DB) (userID : Nat) (pnr : String) :
    Except HTTPError Booking × DB :=
  match db.bookings.find? (fun b => b.PNR == pnr.toUpper && b.UserID == userID) with
  | none => (.error ⟨404, "Booking not found."⟩, db)
  | some booking =>
    if booking.BookingStatus == "Cancelled" then
      (.error ⟨400, "Booking is already cancelled"⟩, db)
    else
      let num_passengers := booking.passengers.length
      let inventories' :=
        match booking.passengers with
        | [] => db.inventories
        | p0 :: _ =>
          match db.inventories.find? (fun inv => inv.InventoryID == p0.InventoryID) with
          | none => db.inventories
          | some _ =>
            updateFirst (fun inv => inv.InventoryID == p0.InventoryID)
              (fun inv => { inv with SeatsBooked := inv.SeatsBooked - (num_passengers : Int) })
              db.inventories
      let booking' := { booking with BookingStatus := "Cancelled" }
      (.ok booking',
        { db with
          inventories := inventories'
          bookings :=
            updateFirst (fun b => b.PNR == pnr.toUpper && b.UserID == userID)
              (fun b => { b with BookingStatus := "Cancelled" }) db.bookings })

/-- Schema `schemas.InventoryBase`: one inventory class in a flight-creation request. -/
structure InventoryCreate where
  ClassCode : String
  BaseFare : Int
  TotalSeats : Int
  IsRefundable : Bool
deriving DecidableEq, Repr

/-- Pydantic validation of `schemas.InventoryBase`: `BaseFare` has `ge=0` and
`TotalSeats` has `gt=0`; a request violating these is rejected at the
framework boundary before the handler runs. -/
def inventoryCreateValid (ic : InventoryCreate) : Prop :=
  0 ≤ ic.BaseFare ∧ 0 < ic.TotalSeats

/-- Modelled from the spec: `schemas.FlightCreate` is referenced by
`create_flight` but missing from `src/app/schemas.py`.  Per §6
("`POST /flights` (admin) — create flight + initial inventory classes") it
carries the `Flight` columns used by the handler plus a list of initial
inventory classes validated by the `InventoryBase` schema that is in `src`. -/
structure FlightCreate where
  FlightNumber : String
  DepartureAirportID : Nat
  ArrivalAirportID : Nat
  AircraftID : Nat
  DepartureDateTime : DateTimeOffset
  ArrivalDateTime : DateTimeOffset
  BasePrice : Int
  Status : String
  inventory_items : List InventoryCreate
deriving DecidableEq, Repr

/-- The inventory rows inserted by the loop in `create_flight`: sequential
primary keys, `SeatsBooked` at its column default `0`, `IsRefundable` at its
column default `True` (the handler passes neither). -/
def mkInventories (fid : Nat) : Nat → List InventoryCreate → List FlightInventory
  | _, [] => []
  | nextID, ic :: rest =>
    { InventoryID := nextID
      FlightID := fid
      ClassCode := ic.ClassCode
      BaseFare := ic.BaseFare
      TotalSeats := ic.TotalSeats
      SeatsBooked := 0
      IsRefundable := true } :: mkInventories fid (nextID + 1) rest

/-- Handler of `POST /flights` (`flights.py`, `create_flight`). -/
def create_flight (db : DB) (flightIn : FlightCreate) : Except HTTPError Flight × DB :=
  let new_flight : Flight :=
    { FlightID := db.nextFlightID
      FlightNumber := flightIn.FlightNumber
      DepartureAirportID := flightIn.DepartureAirportID
      ArrivalAirportID := flightIn.ArrivalAirportID
      AircraftID := flightIn.AircraftID
      DepartureDateTime := flightIn.DepartureDateTime
      ArrivalDateTime := flightIn.ArrivalDateTime
      BasePrice := flightIn.BasePrice
      Status := flightIn.Status }
  (.ok new_flight,
    { db with
      flights := db.flights ++ [new_flight]
      inventories := db.inventories ++ mkInventories db.nextFlightID db.nextInventoryID flightIn.inventory_items
      nextFlightID := db.nextFlightID + 1
      nextInventoryID := db.nextInventoryID + flightIn.inventory_items.length })

/-- Modelled from the spec: `schemas.FlightUpdate` is referenced by
`update_flight` but missing from `src/app/schemas.py`.  Per §6
("`PUT /flights/{id}` (admin) — partial update") it is a partial update of
the `Flight` columns: unset fields are skipped by
`flight_in.dict(exclude_unset=True)`. -/
structure FlightUpdate where
  FlightNumber : Option String
  DepartureAirportID : Option Nat
  ArrivalAirportID : Option Nat
  AircraftID : Option Nat
  DepartureDateTime : Option DateTimeOffset
  ArrivalDateTime : Option DateTimeOffset
  BasePrice : Option Int
  Status : Option String
deriving DecidableEq, Repr

/-- The `setattr` loop of `update_flight`: set each field that was present in
the request. -/
def applyFlightUpdate (u : FlightUpdate) (f : Flight) : Flight :=
  { f with
    FlightNumber := u.FlightNumber.getD f.FlightNumber
    DepartureAirportID := u.DepartureAirportID.getD f.DepartureAirportID
    ArrivalAirportID := u.ArrivalAirportID.getD f.ArrivalAirportID
    AircraftID := u.AircraftID.getD f.AircraftID
    DepartureDateTime := u.DepartureDateTime.getD f.DepartureDateTime
    ArrivalDateTime := u.ArrivalDateTime.getD f.ArrivalDateTime
    BasePrice := u.BasePrice.getD f.BasePrice
    Status := u.Status.getD f.Status }

/-- Handler of `PUT /flights/\x7bflight_id\x7d` (`flights.py`, `update_flight`). -/
def update_flight (db : DB) (flightID : Nat) (flightIn : FlightUpdate) :
    Except HTTPError Flight × DB :=
  match db.flights.find? (fun f => f.FlightID == flightID) with
  | none => (.error ⟨404, "Flight not found"⟩, db)
  | some flight =>
    (.ok (applyFlightUpdate flightIn flight),
      { db with
        flights :=
          updateFirst (fun f => f.FlightID == flightID) (applyFlightUpdate flightIn)
            db.flights })

/-- Schema `schemas.FlightRead`: a flight with its nested relationship data as
serialised by the response model.  Relationship resolution follows the
foreign keys of `models.py`. -/
structure FlightRead where
  flight : Flight
  departure_airport : Option Airport
  arrival_airport : Option Airport
  aircraft : Option Aircraft
  inventory_items : List FlightInventory
deriving DecidableEq, Repr

/-- Resolve the relationships `joinedload`-ed by the flight queries. -/
def flightRead (db : DB) (f : Flight) : FlightRead :=
  { flight := f
    departure_airport := db.airports.find? (fun a => a.AirportID == f.DepartureAirportID)
    arrival_airport := db.airports.find? (fun a => a.AirportID == f.ArrivalAirportID)
    aircraft := db.aircrafts.find? (fun a => a.AircraftID == f.AircraftID)
    inventory_items := db.inventories.filter (fun inv => inv.FlightID == f.FlightID) }

/-- Handler of `GET /flights` (`flights.py`, `search_flights`): the query is built up
one optional filter at a time — an inner join against the aliased `Airports`
table on the departure (resp. arrival) foreign key filtered by upper-cased
IATA code, then a filter on `CAST(DepartureDateTime AS Date)`.  `AirportID`
is the primary key, so each join matches at most one airport row. -/
def search_flights (db : DB) (origin_code destination_code travel_date : Option String) :
    List FlightRead :=
  let q0 := db.flights
  let q1 :=
    match origin_code with
    | none => q0
    | some oc =>
      q0.filter (fun f =>
        db.airports.any (fun a =>
          f.DepartureAirportID == a.AirportID && a.IATACode == oc.toUpper))
  let q2 :=
    match destination_code with
    | none => q1
    | some dc =>
      q1.filter (fun f =>
        db.airports.any (fun a =>
          f.ArrivalAirportID == a.AirportID && a.IATACode == dc.toUpper))
  let q3 :=
    match travel_date with
    | none => q2
    | some d => q2.filter (fun f => f.DepartureDateTime.date == d)
  q3.map (flightRead db)

/-- A Python value, for modelling dynamic attribute access on an ORM row. -/
inductive PyValue where
  | int (i : Int)
  | str (s : String)
  | ostr (s : Option String)
  | bcrypt (h : BcryptHash)
deriving DecidableEq, Repr

/-- Python attribute lookup on a `models.User` instance: exactly the columns
declared in `models.py` are present; any other name raises `AttributeError`
(`none`). -/
def User.getAttr (u : User) (name : String) : Option PyValue :=
  if name == "UserID" then some (.int u.UserID)
  else if name == "Email" then some (.str u.Email)
  else if name == "HashedPassword" then some (.bcrypt u.HashedPassword)
  else if name == "FirstName" then some (.str u.FirstName)
  else if name == "LastName" then some (.str u.LastName)
  else if name == "PhoneNumber" then some (.ostr u.PhoneNumber)
  else if name == "DateOfBirth" then some (.ostr u.DateOfBirth)
  else if name == "CreatedDate" then some (.str u.CreatedDate)
  else none

/-- Python truthiness of an attribute value, as tested by
`if not current_user.IsAdmin`. -/
def pyTruthy : PyValue → Bool
  | .int i => i != 0
  | .str s => s != ""
  | .ostr s => s.isSome && s != some ""
  | .bcrypt _ => true

/-- Function `dependencies.get_admin_user`: reads `current_user.IsAdmin` and raises a
403 when it is falsy.  The `User` model declares no `IsAdmin` column, so in
the code as written the attribute access itself raises `AttributeError`,
which FastAPI surfaces as a 500 server error. -/
def get_admin_user (current_user : User) : Except HTTPError User :=
  match current_user.getAttr "IsAdmin" with
  | none => .error ⟨500, "AttributeError: IsAdmin"⟩
  | some v => if !pyTruthy v then .error ⟨403, "You do not have admin privileges"⟩ else .ok current_user

/-- Function `users.get_password_hash`: `pwd_context.hash(password)` draws a fresh
salt and stores it alongside the digest; the salt draw is a parameter. -/
def get_password_hash (bcrypt : String → String → String) (salt password : String) :
    BcryptHash :=
  ⟨salt, bcrypt salt password⟩

/-- Function `users.verify_password`: `pwd_context.verify` re-hashes the submitted
password with the salt embedded in the stored hash and compares digests. -/
def verify_password (bcrypt : String → String → String) (plain_password : String)
    (hashed_password : BcryptHash) : Bool :=
  hashed_password.digest == bcrypt hashed_password.salt plain_password

/-- Schema `schemas.UserCreate`: body of `POST /users/register`. -/
structure UserCreate where
  Email : String
  Password : String
  FirstName : String
  LastName : String
  PhoneNumber : Option String
  DateOfBirth : Option String
deriving DecidableEq, Repr

/-- Handler of `POST /users/register` (`users.py`, `register_user`).  `salt` stands for
the salt drawn by `pwd_context.hash` and `now` for `datetime.now()`. -/
def register_user (bcrypt : String → String → String) (db : DB) (user_data : UserCreate)
    (salt now : String) : Except HTTPError User × DB :=
  match db.users.find? (fun u => u.Email == user_data.Email) with
  | some _ => (.error ⟨400, "Email already registered"⟩, db)
  | none =>
    let new_user : User :=
      { UserID := db.nextUserID
        Email := user_data.Email
        HashedPassword := get_password_hash bcrypt salt user_data.Password
        FirstName := user_data.FirstName
        LastName := user_data.LastName
        PhoneNumber := user_data.PhoneNumber
        DateOfBirth := user_data.DateOfBirth
        CreatedDate := now }
    (.ok new_user,
      { db with users := db.users ++ [new_user], nextUserID := db.nextUserID + 1 })

/-- A signed JWT as produced by `jose.jwt.encode`: the claims set, the expiry
claim, and — standing in for the signature — the signing key and the header
algorithm.  `jose.jwt.decode` accepts it only when the header algorithm is in
the allowed list, the key matches, and the token is not expired. -/
structure JWT where
  payload : List (String × String)
  exp : Nat
  key : String
  alg : String
deriving DecidableEq, Repr

/-- Module constant of `users.py`: `SECRET_KEY = os.getenv("SECRET_KEY",
"a-very-secret-string-12345")`.  The environment is a parameter. -/
def usersSecretKey (env : String → Option String) : String :=
  (env "SECRET_KEY").getD "a-very-secret-string-12345"

/-- Module constant of `users.py`: `ALGORITHM = "HS256"`. -/
def usersAlgorithm : String := "HS256"

/-- Module constant of `dependencies.py`: `SECRET_KEY = os.getenv("SECRET_KEY")`
(no default). -/
def depsSecretKey (env : String → Option String) : Option String :=
  env "SECRET_KEY"

/-- Module constant of `dependencies.py`: `ALGORITHM = os.getenv("HS256")` — it
reads the environment variable *named* `"HS256"`, not the literal string. -/
def depsAlgorithm (env : String → Option String) : Option String :=
  env "HS256"

/-- Function `users.create_access_token`: copies the claims, adds
`exp = utcnow() + 30 minutes`, and signs with the module's key and
algorithm.  `now` is `datetime.utcnow()` in seconds. -/
def create_access_token (env : String → Option String) (now : Nat)
    (data : List (String × String)) : JWT :=
  { payload := data
    exp := now + 30 * 60
    key := usersSecretKey env
    alg := usersAlgorithm }

/-- Behaviour of `jose.jwt.decode(token, key, algorithms=[alg])`: rejected (a `JWTError`)
when the header algorithm is not in the allowed list, the key does not
verify the signature, or the token is expired. -/
def jwt_decode (token : JWT) (key : Option String) (algorithms : List (Option String))
    (now : Nat) : Option (List (String × String)) :=
  if !(algorithms.contains (some token.alg)) then none
  else if key != some token.key then none
  else if token.exp ≤ now then none
  else some token.payload

/-- The 401 raised throughout `dependencies.get_current_user`. -/
def credentialsException : HTTPError :=
  ⟨401, "Could not validate credentials"⟩

/-- Function `dependencies.get_current_user`: decode the bearer token with the
module's (environment-derived) key and algorithm, read the `sub` claim, and
resolve it to a user by email. -/
def get_current_user (env : String → Option String) (now : Nat) (token : JWT)
    (db : DB) : Except HTTPError User :=
  match jwt_decode token (depsSecretKey env) [depsAlgorithm env] now with
  | none => .error credentialsException
  | some payload =>
    match payload.lookup "sub" with
    | none => .error credentialsException
    | some user_email =>
      match db.users.find? (fun u => u.Email == user_email) with
      | none => .error credentialsException
      | some db_user => .ok db_user

/-- Handler of `POST /users/token` (`users.py`, `login_for_access_token`). -/
def login_for_access_token (bcrypt : String → String → String)
    (env : String → Option String) (now : Nat) (db : DB)
    (username password : String) : Except HTTPError JWT :=
  match db.users.find? (fun u => u.Email == username) with
  | none => .error ⟨401, "Incorrect username or password"⟩
  | some user =>
    if !verify_password bcrypt password user.HashedPassword then
      .error ⟨401, "Incorrect username or password"⟩
    else
      .ok (create_access_token env now [("sub", user.Email)])

/-- A booking whose passengers still occupy seats: any status other than
`"Cancelled"`. -/
def bookingActive (b : Booking) : Bool :=
  b.BookingStatus != "Cancelled"

/-- Seats that booking `b` holds in inventory class `iid`: its passengers in
that class when it is active, none when cancelled. -/
def invCount (iid : Nat) (b : Booking) : Nat :=
  if bookingActive b then (b.passengers.filter (fun p => p.InventoryID == iid)).length else 0

/-- Total seats held in inventory class `iid` across a booking table. -/
def activeCount (bs : List Booking) (iid : Nat) : Nat :=
  (bs.map (invCount iid)).sum

/-- The spec's FlightInventory invariant: `0 <= SeatsBooked <= TotalSeats`
for every row. -/
def InvariantHolds (db : DB) : Prop :=
  ∀ inv ∈ db.inventories, 0 ≤ inv.SeatsBooked ∧ inv.SeatsBooked ≤ inv.TotalSeats

instance : DecidablePred InvariantHolds := fun db =>
  inferInstanceAs (Decidable (∀ inv ∈ db.inventories, _ ∧ _))

/-- The representation consistency that the booking and cancellation
transactions actually maintain: each inventory row's `SeatsBooked` counts
exactly the passengers of active bookings in that class and stays within
`TotalSeats`; primary keys are generated by the counters and hence unique;
and each booking's passengers are in a single class (the constraint
`create_booking` enforces on every request). -/
structure Consistent (db : DB) : Prop where
  seats_eq : ∀ inv ∈ db.inventories, inv.SeatsBooked = (activeCount db.bookings inv.InventoryID : Int)
  seats_le : ∀ inv ∈ db.inventories, inv.SeatsBooked ≤ inv.TotalSeats
  inv_ids_lt : ∀ inv ∈ db.inventories, inv.InventoryID < db.nextInventoryID
  inv_ids_nodup : (db.inventories.map (·.InventoryID)).Nodup
  single_class : ∀ b ∈ db.bookings, ∀ p ∈ b.passengers, ∀ q ∈ b.passengers, p.InventoryID = q.InventoryID
  pass_ids_lt : ∀ b ∈ db.bookings, ∀ p ∈ b.passengers, p.InventoryID < db.nextInventoryID

/-- One completed API operation that touches the tables of the invariant:
booking creation, booking cancellation, flight creation (its request body
validated by the pydantic schema), or flight update.  Failing calls are
included: they return the database unchanged after the rollback. -/
inductive Step : DB → DB → Prop where
  | createBooking (db : DB) (userID : Nat) (bookingIn : BookingCreate) (pnr now : String) :
      Step db (create_booking db userID bookingIn pnr now).2
  | cancelBooking (db : DB) (userID : Nat) (pnr : String) :
      Step db (cancel_booking db userID pnr).2
  | createFlight (db : DB) (flightIn : FlightCreate)
      (hvalid : ∀ ic ∈ flightIn.inventory_items, inventoryCreateValid ic) :
      Step db (create_flight db flightIn).2
  | updateFlight (db : DB) (flightID : Nat) (flightIn : FlightUpdate) :
      Step db (update_flight db flightID flightIn).2

theorem find?_decomp {α} {p : α → Bool} {l : List α} {x : α} (h : l.find? p = some x) :
    ∃ l1 l2, l = l1 ++ x :: l2 ∧ (∀ y ∈ l1, p y = false) ∧ p x = true ∧
      ∀ f, updateFirst p f l = l1 ++ f x :: l2 := by
  induction l with
  | nil => simp [List.find?] at h
  | cons a l ih =>
    by_cases hpa : p a
    · refine ⟨[], l, ?_, ?_, ?_, ?_⟩ <;>
        simp_all [List.find?, updateFirst]
    · simp only [List.find?, Bool.not_eq_true] at h hpa
      rw [hpa] at h
      obtain ⟨l1, l2, hdec, hfalse, hpx, hupd⟩ := ih h
      refine ⟨a :: l1, l2, by simp [hdec], ?_, hpx, ?_⟩
      · intro y hy
        rcases List.mem_cons.mp hy with rfl | hy
        · exact hpa
        · exact hfalse y hy
      · intro f
        simp [updateFirst, hpa, hupd f]

theorem map_updateFirst {α β} (g : α → β) (p : α → Bool) (f : α → α)
    (hg : ∀ x, g (f x) = g x) (l : List α) :
    (updateFirst p f l).map g = l.map g := by
  induction l with
  | nil => rfl
  | cons a l ih =>
    by_cases hpa : p a <;> simp [updateFirst, hpa, hg, ih]

theorem length_le_one_eq {α} {l : List α} (h : l.length ≤ 1) {a b : α}
    (ha : a ∈ l) (hb : b ∈ l) : a = b := by
  match l, h with
  | [], _ => cases ha
  | [x], _ =>
    rw [List.mem_singleton] at ha hb
    rw [ha, hb]

theorem all_eq_of_dedup_length_le_one {l : List Nat} (h : l.dedup.length ≤ 1)
    {a b : Nat} (ha : a ∈ l) (hb : b ∈ l) : a = b :=
  length_le_one_eq h (List.mem_dedup.mpr ha) (List.mem_dedup.mpr hb)

theorem dedup_length_le_one_of_all_eq {l : List Nat} {t : Nat}
    (h : ∀ a ∈ l, a = t) : l.dedup.length ≤ 1 := by
  induction l with
  | nil => simp
  | cons a l ih =>
    by_cases hm : a ∈ l
    · rw [List.dedup_cons_of_mem hm]
      exact ih fun b hb => h b (List.mem_cons_of_mem a hb)
    · have hl : l = [] := by
        cases l with
        | nil => rfl
        | cons b l' =>
          exact absurd (by rw [h a (by simp), h b (by simp)]; simp : a ∈ b :: l') hm
      subst hl
      simp

theorem activeCount_append (bs bs' : List Booking) (iid : Nat) :
    activeCount (bs ++ bs') iid = activeCount bs iid + activeCount bs' iid := by
  simp [activeCount]

theorem activeCount_cons (b : Booking) (bs : List Booking) (iid : Nat) :
    activeCount (b :: bs) iid = invCount iid b + activeCount bs iid := by
  simp [activeCount]

theorem invCount_eq_zero_of_not_mem {iid : Nat} {b : Booking}
    (h : ∀ p ∈ b.passengers, p.InventoryID ≠ iid) : invCount iid b = 0 := by
  unfold invCount
  split
  · simp only [List.length_eq_zero]
    rw [List.filter_eq_nil_iff]
    intro p hp
    simp [h p hp]
  · rfl

theorem activeCount_eq_zero_of_lt {bs : List Booking} {c iid : Nat}
    (h : ∀ b ∈ bs, ∀ p ∈ b.passengers, p.InventoryID < c) (hc : c ≤ iid) :
    activeCount bs iid = 0 := by
  induction bs with
  | nil => rfl
  | cons b bs ih =>
    rw [activeCount_cons, ih fun b hb => h b (List.mem_cons_of_mem _ hb)]
    rw [invCount_eq_zero_of_not_mem fun p hp => ?_]
    exact Nat.ne_of_lt (Nat.lt_of_lt_of_le (h b (by simp) p hp) hc)

theorem mkPassengers_length (bid : Nat) (sb : Int) (pid i : Nat)
    (ps : List PassengerCreate) :
    (mkPassengers bid sb pid i ps).length = ps.length := by
  induction ps generalizing pid i with
  | nil => rfl
  | cons p rest ih => simp [mkPassengers, ih]

theorem mkPassengers_inventoryID {bid : Nat} {sb : Int} {pid i : Nat}
    {ps : List PassengerCreate} {t : Nat} (h : ∀ x ∈ ps, x.InventoryID = t) :
    ∀ q ∈ mkPassengers bid sb pid i ps, q.InventoryID = t := by
  induction ps generalizing pid i with
  | nil => intro q hq; cases hq
  | cons p rest ih =>
    intro q hq
    rcases List.mem_cons.mp hq with rfl | hq
    · exact h p (by simp)
    · exact ih (fun x hx => h x (List.mem_cons_of_mem _ hx)) q hq

theorem invCount_mk_eq {iid : Nat} {b : Booking} {t : Nat}
    (hactive : bookingActive b = true)
    (hall : ∀ p ∈ b.passengers, p.InventoryID = t) :
    invCount iid b = if iid = t then b.passengers.length else 0 := by
  unfold invCount
  rw [hactive]
  simp only [if_true]
  by_cases hit : iid = t
  · subst hit
    rw [if_pos rfl]
    congr 1
    rw [List.filter_eq_self]
    intro p hp
    simp [hall p hp]
  · rw [if_neg hit]
    simp only [List.length_eq_zero]
    rw [List.filter_eq_nil_iff]
    intro p hp
    simp [hall p hp]
    exact fun hhit => hit hhit.symm

theorem mkInventories_bounds {fid n : Nat} {ics : List InventoryCreate} :
    ∀ r ∈ mkInventories fid n ics,
      r.SeatsBooked = 0 ∧ n ≤ r.InventoryID ∧ r.InventoryID < n + ics.length ∧
        ∃ ic ∈ ics, r.TotalSeats = ic.TotalSeats := by
  induction ics generalizing n with
  | nil => intro r hr; cases hr
  | cons ic rest ih =>
    intro r hr
    rcases List.mem_cons.mp hr with rfl | hr
    · exact ⟨rfl, Nat.le_refl n, by simp only [List.length_cons]; omega, ic, by simp⟩
    · obtain ⟨h0, h1, h2, ic', hic', hts⟩ := ih r hr
      refine ⟨h0, Nat.le_of_succ_le h1, ?_, ic', List.mem_cons_of_mem _ hic', hts⟩
      simp only [List.length_cons]
      omega

theorem mkInventories_ids_nodup {fid n : Nat} {ics : List InventoryCreate} :
    ((mkInventories fid n ics).map (·.InventoryID)).Nodup := by
  induction ics generalizing n with
  | nil => simp [mkInventories]
  | cons ic rest ih =>
    simp only [mkInventories, List.map_cons, List.nodup_cons]
    refine ⟨?_, ih⟩
    intro hmem
    obtain ⟨r, hr, hid⟩ := List.mem_map.mp hmem
    have := (mkInventories_bounds r hr).2.1
    omega

theorem activeCount_middle (m1 m2 : List Booking) (b : Booking) (iid : Nat) :
    activeCount (m1 ++ b :: m2) iid =
      activeCount m1 iid + invCount iid b + activeCount m2 iid := by
  simp [activeCount]
  omega

theorem invCount_cancelled (iid : Nat) (b : Booking) :
    invCount iid { b with BookingStatus := "Cancelled" } = 0 := by
  simp [invCount, bookingActive]

theorem consistent_update_flight (db : DB) (flightID : Nat) (flightIn : FlightUpdate)
    (h : Consistent db) : Consistent (update_flight db flightID flightIn).2 := by
  unfold update_flight
  cases hf : db.flights.find? (fun f => f.FlightID == flightID) with
  | none => exact h
  | some flight => exact ⟨h.seats_eq, h.seats_le, h.inv_ids_lt, h.inv_ids_nodup,
      h.single_class, h.pass_ids_lt⟩

theorem consistent_create_flight (db : DB) (flightIn : FlightCreate)
    (hvalid : ∀ ic ∈ flightIn.inventory_items, inventoryCreateValid ic)
    (h : Consistent db) : Consistent (create_flight db flightIn).2 := by
  unfold create_flight
  constructor
  · intro r hr
    rcases List.mem_append.mp hr with hold | hnew
    · exact h.seats_eq r hold
    · obtain ⟨h0, h1, _, _⟩ := mkInventories_bounds r hnew
      rw [h0, activeCount_eq_zero_of_lt (c := db.nextInventoryID) h.pass_ids_lt h1]
      simp
  · intro r hr
    rcases List.mem_append.mp hr with hold | hnew
    · exact h.seats_le r hold
    · obtain ⟨h0, _, _, ic, hic, hts⟩ := mkInventories_bounds r hnew
      rw [h0, hts]
      exact Int.le_of_lt (hvalid ic hic).2
  · intro r hr
    rcases List.mem_append.mp hr with hold | hnew
    · exact Nat.lt_of_lt_of_le (h.inv_ids_lt r hold) (Nat.le_add_right _ _)
    · exact (mkInventories_bounds r hnew).2.2.1
  · rw [List.map_append, List.nodup_append]
    refine ⟨h.inv_ids_nodup, mkInventories_ids_nodup, ?_⟩
    intro x hx hx'
    obtain ⟨r, hr, hid⟩ := List.mem_map.mp hx
    obtain ⟨r', hr', hid'⟩ := List.mem_map.mp hx'
    have hlt := h.inv_ids_lt r hr
    have hge := (mkInventories_bounds r' hr').2.1
    omega
  · exact h.single_class
  · intro b hb p hp
    exact Nat.lt_of_lt_of_le (h.pass_ids_lt b hb p hp) (Nat.le_add_right _ _)

/-- The booking row inserted by a successful `create_booking` call that found
inventory row `inv`. -/
def newBooking (db : DB) (userID : Nat) (bookingIn : BookingCreate) (pnr now : String)
    (inv : FlightInventory) : Booking :=
  { BookingID := db.nextBookingID
    PNR := pnr
    UserID := userID
    FlightID := inv.FlightID
    BookingDate := now
    TotalAmount := inv.BaseFare * (bookingIn.passengers.length : Int)
    BookingStatus := "Confirmed"
    PaymentStatus := "Pending"
    passengers :=
      mkPassengers db.nextBookingID inv.SeatsBooked db.nextPassengerID 0
        bookingIn.passengers }

theorem create_booking_mixed_class (db : DB) (userID : Nat) (bookingIn : BookingCreate)
    (pnr now : String)
    (hded : ((bookingIn.passengers.map (·.InventoryID)).dedup).length > 1) :
    create_booking db userID bookingIn pnr now =
      (.error ⟨400, "All passengers in a single booking must be on the same flight/class"⟩, db) := by
  unfold create_booking
  rw [if_pos hded]

theorem create_booking_empty (db : DB) (userID : Nat) (bookingIn : BookingCreate)
    (pnr now : String) (hps : bookingIn.passengers = []) :
    create_booking db userID bookingIn pnr now =
      (.error ⟨500, "Booking failed: list index out of range"⟩, db) := by
  unfold create_booking
  rw [hps]
  rfl

theorem create_booking_inventory_not_found (db : DB) (userID : Nat)
    (bookingIn : BookingCreate) (pnr now : String) {p0 : PassengerCreate}
    {rest : List PassengerCreate}
    (hded : ¬ ((bookingIn.passengers.map (·.InventoryID)).dedup).length > 1)
    (hps : bookingIn.passengers = p0 :: rest)
    (hfind : db.inventories.find? (fun v => v.InventoryID == p0.InventoryID) = none) :
    create_booking db userID bookingIn pnr now =
      (.error ⟨404, "FlightInventory/Class not found"⟩, db) := by
  unfold create_booking
  rw [if_neg hded, hps]
  simp only [hfind]

theorem create_booking_capacity_error (db : DB) (userID : Nat)
    (bookingIn : BookingCreate) (pnr now : String) {p0 : PassengerCreate}
    {rest : List PassengerCreate} {inv : FlightInventory}
    (hded : ¬ ((bookingIn.passengers.map (·.InventoryID)).dedup).length > 1)
    (hps : bookingIn.passengers = p0 :: rest)
    (hfind : db.inventories.find? (fun v => v.InventoryID == p0.InventoryID) = some inv)
    (hcap : inv.TotalSeats - inv.SeatsBooked < (bookingIn.passengers.length : Int)) :
    create_booking db userID bookingIn pnr now =
      (.error ⟨400, "Only " ++ toString (inv.TotalSeats - inv.SeatsBooked) ++ " seats left!"⟩,
        db) := by
  unfold create_booking
  rw [hps] at hcap
  rw [if_neg hded, hps]
  simp only [hfind]
  rw [if_pos hcap]

theorem create_booking_success (db : DB) (userID : Nat) (bookingIn : BookingCreate)
    (pnr now : String) {p0 : PassengerCreate} {rest : List PassengerCreate}
    {inv : FlightInventory}
    (hded : ¬ ((bookingIn.passengers.map (·.InventoryID)).dedup).length > 1)
    (hps : bookingIn.passengers = p0 :: rest)
    (hfind : db.inventories.find? (fun v => v.InventoryID == p0.InventoryID) = some inv)
    (hcap : ¬ inv.TotalSeats - inv.SeatsBooked < (bookingIn.passengers.length : Int)) :
    create_booking db userID bookingIn pnr now =
      (.ok (newBooking db userID bookingIn pnr now inv),
        { db with
          bookings := db.bookings ++ [newBooking db userID bookingIn pnr now inv]
          inventories :=
            updateFirst (fun v => v.InventoryID == p0.InventoryID)
              (fun v => { v with SeatsBooked := v.SeatsBooked + (bookingIn.passengers.length : Int) })
              db.inventories
          nextBookingID := db.nextBookingID + 1
          nextPassengerID := db.nextPassengerID + bookingIn.passengers.length }) := by
  unfold create_booking newBooking
  rw [hps] at hcap
  rw [if_neg hded, hps]
  simp only [hfind]
  rw [if_neg hcap]

/-- A booking after the status flip performed by `cancel_booking`. -/
def cancelledBooking (b : Booking) : Booking :=
  { b with BookingStatus := "Cancelled" }

theorem cancel_booking_not_found (db : DB) (userID : Nat) (pnr : String)
    (hfind : db.bookings.find? (fun b => b.PNR == pnr.toUpper && b.UserID == userID) = none) :
    cancel_booking db userID pnr = (.error ⟨404, "Booking not found."⟩, db) := by
  unfold cancel_booking
  simp only [hfind]

theorem cancel_booking_already_cancelled (db : DB) (userID : Nat) (pnr : String)
    {b : Booking}
    (hfind : db.bookings.find? (fun x => x.PNR == pnr.toUpper && x.UserID == userID) = some b)
    (hstat : b.BookingStatus = "Cancelled") :
    cancel_booking db userID pnr = (.error ⟨400, "Booking is already cancelled"⟩, db) := by
  unfold cancel_booking
  simp only [hfind]
  rw [if_pos (by simp [hstat])]

theorem cancel_booking_success_inventory (db : DB) (userID : Nat) (pnr : String)
    {b : Booking} {p0 : Passenger} {prest : List Passenger} {invr : FlightInventory}
    (hfind : db.bookings.find? (fun x => x.PNR == pnr.toUpper && x.UserID == userID) = some b)
    (hstat : b.BookingStatus ≠ "Cancelled")
    (hp : b.passengers = p0 :: prest)
    (hinv : db.inventories.find? (fun v => v.InventoryID == p0.InventoryID) = some invr) :
    cancel_booking db userID pnr =
      (.ok (cancelledBooking b),
        { db with
          inventories :=
            updateFirst (fun v => v.InventoryID == p0.InventoryID)
              (fun v => { v with SeatsBooked := v.SeatsBooked - (b.passengers.length : Int) })
              db.inventories
          bookings :=
            updateFirst (fun x => x.PNR == pnr.toUpper && x.UserID == userID)
              (fun x => { x with BookingStatus := "Cancelled" }) db.bookings }) := by
  unfold cancel_booking cancelledBooking
  simp only [hfind]
  rw [if_neg (by simp [hstat]), hp]
  simp only [hinv]

theorem cancel_booking_success_no_inventory (db : DB) (userID : Nat) (pnr : String)
    {b : Booking}
    (hfind : db.bookings.find? (fun x => x.PNR == pnr.toUpper && x.UserID == userID) = some b)
    (hstat : b.BookingStatus ≠ "Cancelled")
    (hp : b.passengers = [] ∨ ∃ p0 prest, b.passengers = p0 :: prest ∧
      db.inventories.find? (fun v => v.InventoryID == p0.InventoryID) = none) :
    cancel_booking db userID pnr =
      (.ok (cancelledBooking b),
        { db with
          bookings :=
            updateFirst (fun x => x.PNR == pnr.toUpper && x.UserID == userID)
              (fun x => { x with BookingStatus := "Cancelled" }) db.bookings }) := by
  unfold cancel_booking cancelledBooking
  simp only [hfind]
  rw [if_neg (by simp [hstat])]
  rcases hp with hp | ⟨p0, prest, hp, hnone⟩
  · rw [hp]
  · rw [hp]
    simp only [hnone]

theorem consistent_after_insert (db : DB) (newB : Booking) (tid : Nat) (k : Nat)
    (h : Consistent db)
    (hactive : bookingActive newB = true)
    (hall : ∀ p ∈ newB.passengers, p.InventoryID = tid)
    (hlen : newB.passengers.length = k)
    {inv : FlightInventory}
    (hfind : db.inventories.find? (fun v => v.InventoryID == tid) = some inv)
    (hcap : inv.SeatsBooked + (k : Int) ≤ inv.TotalSeats)
    (nb np : Nat) :
    Consistent
      { db with
        bookings := db.bookings ++ [newB]
        inventories :=
          updateFirst (fun v => v.InventoryID == tid)
            (fun v => { v with SeatsBooked := v.SeatsBooked + (k : Int) }) db.inventories
        nextBookingID := nb
        nextPassengerID := np } := by
  obtain ⟨l1, l2, hdec, hfalse, hpx, hupd⟩ := find?_decomp hfind
  have hid : inv.InventoryID = tid := by simpa using hpx
  have hinvmem : inv ∈ db.inventories := List.mem_of_find?_eq_some hfind
  have hneq1 : ∀ r ∈ l1, r.InventoryID ≠ tid := by
    intro r hr
    simpa using hfalse r hr
  have hneq2 : ∀ r ∈ l2, r.InventoryID ≠ tid := by
    have hnd := h.inv_ids_nodup
    rw [hdec, List.map_append, List.nodup_append] at hnd
    have hnotin : inv.InventoryID ∉ l2.map (·.InventoryID) :=
      (List.nodup_cons.mp hnd.2.1).1
    intro r hr heq
    apply hnotin
    rw [hid, ← heq]
    exact List.mem_map_of_mem _ hr
  have hAC : ∀ iid, activeCount (db.bookings ++ [newB]) iid =
      activeCount db.bookings iid + (if iid = tid then k else 0) := by
    intro iid
    rw [activeCount_append]
    have : activeCount [newB] iid = invCount iid newB := by
      simp [activeCount]
    rw [this, invCount_mk_eq hactive hall, hlen]
  have hmap : (updateFirst (fun v => v.InventoryID == tid)
      (fun v => { v with SeatsBooked := v.SeatsBooked + (k : Int) }) db.inventories).map
        (·.InventoryID) = db.inventories.map (·.InventoryID) :=
    map_updateFirst (·.InventoryID) (fun v => v.InventoryID == tid)
      (fun v => { v with SeatsBooked := v.SeatsBooked + (k : Int) }) (fun x => rfl)
      db.inventories
  constructor
  · intro r hr
    rw [hupd] at hr
    rw [hAC r.InventoryID]
    rcases List.mem_append.mp hr with hr1 | hr2
    · rw [if_neg (hneq1 r hr1)]
      have := h.seats_eq r (hdec ▸ List.mem_append_left _ hr1)
      simpa using this
    · rcases List.mem_cons.mp hr2 with rfl | hr2
      · have hold := h.seats_eq inv hinvmem
        rw [hid] at hold
        simp only [hid, if_pos rfl]
        push_cast
        omega
      · rw [if_neg (hneq2 r hr2)]
        have := h.seats_eq r (hdec ▸ List.mem_append_right _ (List.mem_cons_of_mem _ hr2))
        simpa using this
  · intro r hr
    rw [hupd] at hr
    rcases List.mem_append.mp hr with hr1 | hr2
    · exact h.seats_le r (hdec ▸ List.mem_append_left _ hr1)
    · rcases List.mem_cons.mp hr2 with rfl | hr2
      · simpa using hcap
      · exact h.seats_le r (hdec ▸ List.mem_append_right _ (List.mem_cons_of_mem _ hr2))
  · intro r hr
    have : r.InventoryID ∈ db.inventories.map (·.InventoryID) :=
      hmap ▸ List.mem_map_of_mem _ hr
    obtain ⟨s, hs, hsid⟩ := List.mem_map.mp this
    exact hsid ▸ h.inv_ids_lt s hs
  · exact hmap ▸ h.inv_ids_nodup
  · intro b hb p hp q hq
    rcases List.mem_append.mp hb with hb | hb
    · exact h.single_class b hb p hp q hq
    · rw [List.mem_singleton.mp hb] at hp hq
      rw [hall p hp, hall q hq]
  · intro b hb p hp
    rcases List.mem_append.mp hb with hb | hb
    · exact h.pass_ids_lt b hb p hp
    · rw [List.mem_singleton.mp hb] at hp
      rw [hall p hp, ← hid]
      exact h.inv_ids_lt inv hinvmem

theorem consistent_after_flip (db : DB) (predB : Booking → Bool) {b : Booking}
    (h : Consistent db)
    (hfindB : db.bookings.find? predB = some b)
    (hzero : ∀ r ∈ db.inventories, invCount r.InventoryID b = 0) :
    Consistent
      { db with
        bookings :=
          updateFirst predB (fun x => { x with BookingStatus := "Cancelled" })
            db.bookings } := by
  obtain ⟨m1, m2, hdecB, _, _, hupdB⟩ := find?_decomp hfindB
  have hbmem : b ∈ db.bookings := List.mem_of_find?_eq_some hfindB
  constructor
  · intro r hr
    show r.SeatsBooked = _
    rw [hupdB _, activeCount_middle, invCount_cancelled]
    have hold := h.seats_eq r hr
    rw [hdecB, activeCount_middle, hzero r hr] at hold
    exact_mod_cast hold
  · intro r hr
    exact h.seats_le r hr
  · intro r hr
    exact h.inv_ids_lt r hr
  · exact h.inv_ids_nodup
  · intro bb hbb p hp q hq
    rw [hupdB] at hbb
    rcases List.mem_append.mp hbb with h1 | h2
    · exact h.single_class bb (by rw [hdecB]; exact List.mem_append_left _ h1) p hp q hq
    · rcases List.mem_cons.mp h2 with rfl | h2
      · exact h.single_class b hbmem p hp q hq
      · exact h.single_class bb
          (by rw [hdecB]; exact List.mem_append_right _ (List.mem_cons_of_mem _ h2)) p hp q hq
  · intro bb hbb p hp
    rw [hupdB] at hbb
    rcases List.mem_append.mp hbb with h1 | h2
    · exact h.pass_ids_lt bb (by rw [hdecB]; exact List.mem_append_left _ h1) p hp
    · rcases List.mem_cons.mp h2 with rfl | h2
      · exact h.pass_ids_lt b hbmem p hp
      · exact h.pass_ids_lt bb
          (by rw [hdecB]; exact List.mem_append_right _ (List.mem_cons_of_mem _ h2)) p hp

theorem consistent_after_cancel_update (db : DB) (predB : Booking → Bool) {b : Booking}
    (h : Consistent db)
    (hfindB : db.bookings.find? predB = some b)
    (hactive : bookingActive b = true)
    {I : Nat} (hall : ∀ p ∈ b.passengers, p.InventoryID = I)
    {invr : FlightInventory}
    (hfindI : db.inventories.find? (fun v => v.InventoryID == I) = some invr) :
    Consistent
      { db with
        inventories :=
          updateFirst (fun v => v.InventoryID == I)
            (fun v => { v with SeatsBooked := v.SeatsBooked - (b.passengers.length : Int) })
            db.inventories
        bookings :=
          updateFirst predB (fun x => { x with BookingStatus := "Cancelled" })
            db.bookings } := by
  obtain ⟨m1, m2, hdecB, _, _, hupdB⟩ := find?_decomp hfindB
  obtain ⟨n1, n2, hdecI, hfalseI, hpxI, hupdI⟩ := find?_decomp hfindI
  have hbmem : b ∈ db.bookings := List.mem_of_find?_eq_some hfindB
  have hImem : invr ∈ db.inventories := List.mem_of_find?_eq_some hfindI
  have hIid : invr.InventoryID = I := by simpa using hpxI
  have hneq1 : ∀ r ∈ n1, r.InventoryID ≠ I := by
    intro r hr
    simpa using hfalseI r hr
  have hneq2 : ∀ r ∈ n2, r.InventoryID ≠ I := by
    have hnd := h.inv_ids_nodup
    rw [hdecI, List.map_append, List.nodup_append] at hnd
    have hnotin : invr.InventoryID ∉ n2.map (·.InventoryID) :=
      (List.nodup_cons.mp hnd.2.1).1
    intro r hr heq
    apply hnotin
    rw [hIid, ← heq]
    exact List.mem_map_of_mem _ hr
  have hACold : ∀ iid, activeCount db.bookings iid =
      activeCount m1 iid + (if iid = I then b.passengers.length else 0) +
        activeCount m2 iid := by
    intro iid
    rw [hdecB, activeCount_middle, invCount_mk_eq hactive hall]
  have hACnew : ∀ iid,
      activeCount (updateFirst predB (fun x => { x with BookingStatus := "Cancelled" })
        db.bookings) iid = activeCount m1 iid + activeCount m2 iid := by
    intro iid
    rw [hupdB _, activeCount_middle, invCount_cancelled]
    omega
  have hmapI : (updateFirst (fun v => v.InventoryID == I)
      (fun v => { v with SeatsBooked := v.SeatsBooked - (b.passengers.length : Int) })
      db.inventories).map (·.InventoryID) = db.inventories.map (·.InventoryID) :=
    map_updateFirst (·.InventoryID) (fun v => v.InventoryID == I)
      (fun v => { v with SeatsBooked := v.SeatsBooked - (b.passengers.length : Int) })
      (fun x => rfl) db.inventories
  constructor
  · intro r hr
    show r.SeatsBooked = _
    rw [hACnew r.InventoryID]
    rw [hupdI] at hr
    rcases List.mem_append.mp hr with hr1 | hr2
    · have hold := h.seats_eq r (by rw [hdecI]; exact List.mem_append_left _ hr1)
      rw [hACold, if_neg (hneq1 r hr1)] at hold
      exact_mod_cast hold
    · rcases List.mem_cons.mp hr2 with rfl | hr2
      · have hold := h.seats_eq invr hImem
        rw [hACold, hIid, if_pos rfl] at hold
        show invr.SeatsBooked - (b.passengers.length : Int) = _
        rw [show ({ invr with SeatsBooked :=
          invr.SeatsBooked - (b.passengers.length : Int) } : FlightInventory).InventoryID =
            I from hIid]
        push_cast at hold ⊢
        omega
      · have hold := h.seats_eq r
          (by rw [hdecI]; exact List.mem_append_right _ (List.mem_cons_of_mem _ hr2))
        rw [hACold, if_neg (hneq2 r hr2)] at hold
        exact_mod_cast hold
  · intro r hr
    rw [hupdI] at hr
    rcases List.mem_append.mp hr with hr1 | hr2
    · exact h.seats_le r (by rw [hdecI]; exact List.mem_append_left _ hr1)
    · rcases List.mem_cons.mp hr2 with rfl | hr2
      · have hle := h.seats_le invr hImem
        show invr.SeatsBooked - (b.passengers.length : Int) ≤ invr.TotalSeats
        have : (0 : Int) ≤ (b.passengers.length : Int) := Int.ofNat_nonneg _
        omega
      · exact h.seats_le r
          (by rw [hdecI]; exact List.mem_append_right _ (List.mem_cons_of_mem _ hr2))
  · intro r hr
    have : r.InventoryID ∈ db.inventories.map (·.InventoryID) :=
      hmapI ▸ List.mem_map_of_mem _ hr
    obtain ⟨s, hs, hsid⟩ := List.mem_map.mp this
    exact hsid ▸ h.inv_ids_lt s hs
  · exact hmapI ▸ h.inv_ids_nodup
  · intro bb hbb p hp q hq
    rw [hupdB] at hbb
    rcases List.mem_append.mp hbb with h1 | h2
    · exact h.single_class bb (by rw [hdecB]; exact List.mem_append_left _ h1) p hp q hq
    · rcases List.mem_cons.mp h2 with rfl | h2
      · exact h.single_class b hbmem p hp q hq
      · exact h.single_class bb
          (by rw [hdecB]; exact List.mem_append_right _ (List.mem_cons_of_mem _ h2)) p hp q hq
  · intro bb hbb p hp
    rw [hupdB] at hbb
    rcases List.mem_append.mp hbb with h1 | h2
    · exact h.pass_ids_lt bb (by rw [hdecB]; exact List.mem_append_left _ h1) p hp
    · rcases List.mem_cons.mp h2 with rfl | h2
      · exact h.pass_ids_lt b hbmem p hp
      · exact h.pass_ids_lt bb
          (by rw [hdecB]; exact List.mem_append_right _ (List.mem_cons_of_mem _ h2)) p hp

theorem consistent_create_booking (db : DB) (userID : Nat) (bookingIn : BookingCreate)
    (pnr now : String) (h : Consistent db) :
    Consistent (create_booking db userID bookingIn pnr now).2 := by
  by_cases hded : ((bookingIn.passengers.map (·.InventoryID)).dedup).length > 1
  · rw [create_booking_mixed_class db userID bookingIn pnr now hded]
    exact h
  · cases hps : bookingIn.passengers with
    | nil =>
      rw [create_booking_empty db userID bookingIn pnr now hps]
      exact h
    | cons p0 rest =>
      have hall : ∀ x ∈ bookingIn.passengers, x.InventoryID = p0.InventoryID := by
        intro x hx
        exact all_eq_of_dedup_length_le_one (Nat.le_of_not_lt hded)
          (List.mem_map_of_mem _ hx)
          (List.mem_map_of_mem _ (by rw [hps]; exact List.mem_cons_self _ _))
      cases hfind : db.inventories.find? (fun v => v.InventoryID == p0.InventoryID) with
      | none =>
        rw [create_booking_inventory_not_found db userID bookingIn pnr now hded hps hfind]
        exact h
      | some inv =>
        by_cases hcap : inv.TotalSeats - inv.SeatsBooked < (bookingIn.passengers.length : Int)
        · rw [create_booking_capacity_error db userID bookingIn pnr now hded hps hfind hcap]
          exact h
        · rw [create_booking_success db userID bookingIn pnr now hded hps hfind hcap]
          exact consistent_after_insert db (newBooking db userID bookingIn pnr now inv)
            p0.InventoryID bookingIn.passengers.length h rfl
            (mkPassengers_inventoryID hall)
            (mkPassengers_length _ _ _ _ _) hfind (by omega) _ _

theorem consistent_cancel_booking (db : DB) (userID : Nat) (pnr : String)
    (h : Consistent db) : Consistent (cancel_booking db userID pnr).2 := by
  cases hfind : db.bookings.find? (fun x => x.PNR == pnr.toUpper && x.UserID == userID) with
  | none =>
    rw [cancel_booking_not_found db userID pnr hfind]
    exact h
  | some b =>
    have hbmem : b ∈ db.bookings := List.mem_of_find?_eq_some hfind
    by_cases hstat : b.BookingStatus = "Cancelled"
    · rw [cancel_booking_already_cancelled db userID pnr hfind hstat]
      exact h
    · have hactive : bookingActive b = true := by
        simp [bookingActive, hstat]
      cases hp : b.passengers with
      | nil =>
        rw [cancel_booking_success_no_inventory db userID pnr hfind hstat (Or.inl hp)]
        exact consistent_after_flip db _ h hfind fun r hr => by simp [invCount, hp]
      | cons pp0 prest =>
        have hall : ∀ p ∈ b.passengers, p.InventoryID = pp0.InventoryID := by
          intro p hmem
          exact h.single_class b hbmem p hmem pp0 (by rw [hp]; exact List.mem_cons_self _ _)
        cases hinv : db.inventories.find? (fun v => v.InventoryID == pp0.InventoryID) with
        | none =>
          rw [cancel_booking_success_no_inventory db userID pnr hfind hstat
            (Or.inr ⟨pp0, prest, hp, hinv⟩)]
          refine consistent_after_flip db _ h hfind fun r hr => ?_
          refine invCount_eq_zero_of_not_mem fun p hmem heq => ?_
          have hnone := List.find?_eq_none.mp hinv r hr
          rw [hall p hmem] at heq
          simp [← heq] at hnone
        | some invr =>
          rw [cancel_booking_success_inventory db userID pnr hfind hstat hp hinv]
          exact consistent_after_cancel_update db _ h hfind hactive hall hinv

theorem consistent_step {db db' : DB} (h : Consistent db) (hs : Step db db') :
    Consistent db' := by
  cases hs with
  | createBooking userID bookingIn pnr now =>
    exact consistent_create_booking db userID bookingIn pnr now h
  | cancelBooking userID pnr =>
    exact consistent_cancel_booking db userID pnr h
  | createFlight flightIn hvalid =>
    exact consistent_create_flight db flightIn hvalid h
  | updateFlight flightID flightIn =>
    exact consistent_update_flight db flightID flightIn h

theorem consistent_invariant {db : DB} (h : Consistent db) : InvariantHolds db := by
  intro inv hinv
  refine ⟨?_, h.seats_le inv hinv⟩
  rw [h.seats_eq inv hinv]
  exact Int.ofNat_nonneg _

/-- Decode one decimal digit character. -/
def decDigit (c : Char) : Nat := c.toNat - 48

/-- Decode a decimal digit string, most significant digit first. -/
def decodeDigits (l : List Char) : Nat :=
  l.foldl (fun a c => 10 * a + decDigit c) 0

theorem decodeDigits_append_singleton (l : List Char) (c : Char) :
    decodeDigits (l ++ [c]) = 10 * decodeDigits l + decDigit c := by
  simp [decodeDigits, List.foldl_append]

theorem decDigit_digitChar (m : Nat) (hm : m < 10) :
    decDigit (Nat.digitChar m) = m := by
  interval_cases m <;> rfl

theorem toDigitsCore_acc (n : Nat) : ∀ fuel ds, n < fuel →
    Nat.toDigitsCore 10 fuel n ds = Nat.toDigitsCore 10 (n + 1) n [] ++ ds := by
  induction n using Nat.strong_induction_on with
  | _ n ih =>
    intro fuel ds hfuel
    match fuel, hfuel with
    | f + 1, hfuel =>
      simp only [Nat.toDigitsCore]
      by_cases h10 : n / 10 = 0
      · simp [h10]
      · have hn : 0 < n := by
          rcases Nat.eq_zero_or_pos n with rfl | hn
          · simp at h10
          · exact hn
        have hdiv : n / 10 < n := Nat.div_lt_self hn (by norm_num)
        rw [if_neg h10, if_neg h10]
        rw [ih (n / 10) hdiv f _ (by omega), ih (n / 10) hdiv n _ hdiv]
        simp

theorem decodeDigits_toDigits (n : Nat) : decodeDigits (Nat.toDigits 10 n) = n := by
  induction n using Nat.strong_induction_on with
  | _ n ih =>
    unfold Nat.toDigits
    simp only [Nat.toDigitsCore]
    by_cases h10 : n / 10 = 0
    · have hlt : n < 10 := (Nat.div_eq_zero_iff (by norm_num)).mp h10
      rw [if_pos h10]
      show decodeDigits [Nat.digitChar (n % 10)] = n
      rw [show decodeDigits [Nat.digitChar (n % 10)] =
        10 * 0 + decDigit (Nat.digitChar (n % 10)) from rfl]
      rw [decDigit_digitChar _ (Nat.mod_lt _ (by norm_num))]
      omega
    · have hn : 0 < n := by
        rcases Nat.eq_zero_or_pos n with rfl | hn
        · simp at h10
        · exact hn
      have hdiv : n / 10 < n := Nat.div_lt_self hn (by norm_num)
      rw [if_neg h10]
      rw [toDigitsCore_acc (n / 10) n _ hdiv]
      rw [show Nat.toDigitsCore 10 (n / 10 + 1) (n / 10) [] = Nat.toDigits 10 (n / 10) from rfl]
      rw [decodeDigits_append_singleton, ih (n / 10) hdiv,
        decDigit_digitChar _ (Nat.mod_lt _ (by norm_num))]
      omega

theorem natRepr_injective : Function.Injective Nat.repr := by
  intro a b hab
  have hdata : Nat.toDigits 10 a = Nat.toDigits 10 b := by
    have := congrArg String.data hab
    simpa [Nat.repr, List.asString] using this
  calc a = decodeDigits (Nat.toDigits 10 a) := (decodeDigits_toDigits a).symm
    _ = decodeDigits (Nat.toDigits 10 b) := by rw [hdata]
    _ = b := decodeDigits_toDigits b

theorem append_singleton_inj {α} {xs ys : List α} {c d : α}
    (h : xs ++ [c] = ys ++ [d]) : xs = ys ∧ c = d := by
  have h1 := congrArg List.reverse h
  simp only [List.reverse_append, List.reverse_singleton, List.singleton_append] at h1
  obtain ⟨hc, hrev⟩ := List.cons.inj h1
  exact ⟨by simpa using congrArg List.reverse hrev, hc⟩

/-- Evaluation of `gen_seat_label` at a natural-number index, written the way the claim
states it: the decimal representation of `n / 6 + 1` followed by the
`(n % 6)`-th letter of `A,B,C,D,E,F`. -/
theorem gen_seat_label_nat (n : Nat) :
    gen_seat_label (n : Int) =
      Nat.repr (n / 6 + 1) ++ ["A", "B", "C", "D", "E", "F"].getD (n % 6) "" := by
  unfold gen_seat_label
  have hdiv : (n : Int).fdiv 6 = ((n / 6 : Nat) : Int) := by
    rw [show (6 : Int) = ((6 : Nat) : Int) by norm_cast, ← Int.ofNat_fdiv]
  have hmod : (n : Int).emod 6 = ((n % 6 : Nat) : Int) := by
    rw [show (6 : Int) = ((6 : Nat) : Int) by norm_cast]
    rw [show (n : Int).emod ((6 : Nat) : Int) = (n : Int) % ((6 : Nat) : Int) from rfl]
    rw [← Int.ofNat_emod]
  rw [hdiv, hmod]
  rw [show ((n / 6 : Nat) : Int) + 1 = ((n / 6 + 1 : Nat) : Int) by push_cast; ring]
  rfl

theorem seatLetter_data (k : Nat) (hk : k < 6) :
    (["A", "B", "C", "D", "E", "F"].getD k "").data =
      [['A', 'B', 'C', 'D', 'E', 'F'].getD k ' '] := by
  interval_cases k <;> rfl

theorem gen_seat_label_nat_inj {m n : Nat}
    (h : gen_seat_label (m : Int) = gen_seat_label (n : Int)) : m = n := by
  rw [gen_seat_label_nat, gen_seat_label_nat] at h
  have hdata := congrArg String.data h
  rw [String.data_append, String.data_append,
    seatLetter_data _ (Nat.mod_lt _ (by norm_num)),
    seatLetter_data _ (Nat.mod_lt _ (by norm_num))] at hdata
  obtain ⟨hrepr, hletter⟩ := append_singleton_inj hdata
  have hdiv : m / 6 + 1 = n / 6 + 1 := natRepr_injective (String.ext hrepr)
  have hmod : m % 6 = n % 6 := by
    have h6m : m % 6 < 6 := Nat.mod_lt _ (by norm_num)
    have h6n : n % 6 < 6 := Nat.mod_lt _ (by norm_num)
    have : ∀ i < 6, ∀ j < 6,
        (['A', 'B', 'C', 'D', 'E', 'F'].getD i ' ') =
          (['A', 'B', 'C', 'D', 'E', 'F'].getD j ' ') → i = j := by decide
    exact this _ h6m _ h6n hletter
  have hm := Nat.div_add_mod m 6
  have hn := Nat.div_add_mod n 6
  omega

theorem mkPassengers_seat_labels (bid : Nat) (sb : Int) (pid i0 : Nat)
    (ps : List PassengerCreate) :
    (mkPassengers bid sb pid i0 ps).map (·.SeatNumber) =
      (List.range ps.length).map
        (fun i => some (gen_seat_label (sb + ((i0 + i : Nat) : Int)))) := by
  induction ps generalizing pid i0 with
  | nil => rfl
  | cons p rest ih =>
    simp only [mkPassengers, List.map_cons, List.length_cons, List.range_succ_eq_map,
      List.map_map]
    refine congrArg₂ List.cons rfl ?_
    rw [ih (pid + 1) (i0 + 1)]
    apply List.map_congr_left
    intro i _
    simp only [Function.comp]
    congr 2
    push_cast
    ring

theorem find?_of_front_false {α} {p : α → Bool} {l1 l2 : List α} {x : α}
    (h1 : ∀ y ∈ l1, p y = false) (hx : p x = true) :
    (l1 ++ x :: l2).find? p = some x := by
  induction l1 with
  | nil => simp [List.find?_cons_of_pos _ hx]
  | cons a t ih =>
    rw [List.cons_append, List.find?_cons_of_neg _ (by simp [h1 a (by simp)])]
    exact ih fun y hy => h1 y (List.mem_cons_of_mem _ hy)

/-- The "matches all supplied filters" predicate of the flight search: an
omitted filter passes every flight; a supplied one requires the departure
(resp. arrival) airport's IATA code to equal the upper-cased query, or the
date component of the departure timestamp to equal the travel date. -/
def flightMatches (db : DB) (origin_code destination_code travel_date : Option String)
    (f : Flight) : Bool :=
  (match origin_code with
    | none => true
    | some oc =>
      db.airports.any (fun a =>
        f.DepartureAirportID == a.AirportID && a.IATACode == oc.toUpper)) &&
  (match destination_code with
    | none => true
    | some dc =>
      db.airports.any (fun a =>
        f.ArrivalAirportID == a.AirportID && a.IATACode == dc.toUpper)) &&
  (match travel_date with
    | none => true
    | some dt => f.DepartureDateTime.date == dt)

/-- C5 (amended): `search_flights` returns exactly the flights matching all
supplied origin/destination/date filters, each with its nested airport,
aircraft and inventory rows attached, and — being a pure function of the
database — mutates no state.  It applies no seat-availability filter: the
request carries no passenger count and sold-out flights are returned. -/
theorem claim5_search_flights_filter (db : DB) (origin_code destination_code
    travel_date : Option String) :
    search_flights db origin_code destination_code travel_date =
      (db.flights.filter (flightMatches db origin_code destination_code travel_date)).map
        (flightRead db) := by
  unfold search_flights flightMatches
  cases origin_code with
  | none =>
    cases destination_code with
    | none =>
      cases travel_date with
      | none => simp
      | some dt => simp
    | some dc =>
      cases travel_date with
      | none => simp
      | some dt =>
        simp only [List.filter_filter, Bool.true_and]
        congr 1
        apply List.filter_congr
        intro f _
        exact Bool.and_comm _ _
  | some oc =>
    cases destination_code with
    | none =>
      cases travel_date with
      | none => simp
      | some dt =>
        simp only [List.filter_filter, Bool.true_and, Bool.and_true]
        congr 1
        apply List.filter_congr
        intro f _
        exact Bool.and_comm _ _
    | some dc =>
      cases travel_date with
      | none =>
        simp only [List.filter_filter, Bool.and_true]
        congr 1
        apply List.filter_congr
        intro f _
        exact Bool.and_comm _ _
      | some dt =>
        simp [List.filter_filter, Bool.and_assoc, Bool.and_comm, Bool.and_left_comm]

/-! Concrete database states used to witness or refute the claims. -/

def airportA : Airport :=
  { AirportID := 1, IATACode := "AAA", Name := "Alpha Field", City := "Alphaville",
    Country := "AA", TimeZone := none }

def airportB : Airport :=
  { AirportID := 2, IATACode := "BBB", Name := "Beta Field", City := "Betaville",
    Country := "BB", TimeZone := none }

def craftC : Aircraft :=
  { AircraftID := 1, ModelCode := "A320", Manufacturer := some "Airbus",
    TotalSeats := 180, Range_km := some 6000 }

/-- An inventory class with every seat sold: `TotalSeats = 1`, `SeatsBooked = 1`. -/
def fullInventory : FlightInventory :=
  { InventoryID := 1, FlightID := 1, ClassCode := "Y", BaseFare := 100,
    TotalSeats := 1, SeatsBooked := 1, IsRefundable := true }

def flightF : Flight :=
  { FlightID := 1, FlightNumber := "XX100", DepartureAirportID := 1, ArrivalAirportID := 2,
    AircraftID := 1, DepartureDateTime := ⟨"2025-06-01", "10:00", "+00:00"⟩,
    ArrivalDateTime := ⟨"2025-06-01", "20:00", "+00:00"⟩, BasePrice := 500,
    Status := "Scheduled" }

/-- A store whose only flight is completely sold out. -/
def soldOutDB : DB :=
  { airports := [airportA, airportB], aircrafts := [craftC], flights := [flightF],
    inventories := [fullInventory], users := [], bookings := [],
    nextFlightID := 2, nextInventoryID := 2, nextUserID := 1, nextBookingID := 1,
    nextPassengerID := 1 }

theorem toUpper_asMap (s : String) : s.toUpper = ⟨s.data.map Char.toUpper⟩ := by
  rw [String.toUpper, String.map_eq]

/-- C5 (counterexample): with all three filters supplied and matching, the
search returns the sold-out flight even though no inventory class of it has
a single open seat, refuting "each joined with inventory so that at least one
class has sufficient open seats for the requested passenger count" for every
positive passenger count. -/
theorem claim5_counterexample :
    search_flights soldOutDB (some "aaa") (some "bbb") (some "2025-06-01") =
      [{ flight := flightF, departure_airport := some airportA,
         arrival_airport := some airportB, aircraft := some craftC,
         inventory_items := [fullInventory] }] ∧
    fullInventory.TotalSeats - fullInventory.SeatsBooked < 1 := by
  refine ⟨?_, by decide⟩
  unfold search_flights
  dsimp only
  rw [toUpper_asMap "aaa", toUpper_asMap "bbb"]
  rfl

/-- One confirmed booking of one passenger, but inventory whose `SeatsBooked`
counter is already `0`: the plain `0 ≤ SeatsBooked ≤ TotalSeats` invariant
holds, yet cancelling drives the counter to `-1`. -/
def staleInventory : FlightInventory :=
  { InventoryID := 1, FlightID := 1, ClassCode := "Y", BaseFare := 100,
    TotalSeats := 10, SeatsBooked := 0, IsRefundable := true }

def stalePassenger : Passenger :=
  { PassengerID := 1, BookingID := 1, InventoryID := 1, FirstName := "Jane",
    LastName := "Doe", DateOfBirth := "1990-01-01", PassportNumber := none,
    SeatNumber := some "1A" }

def staleBooking : Booking :=
  { BookingID := 1, PNR := "ABC123", UserID := 1, FlightID := 1,
    BookingDate := "2025-01-01", TotalAmount := 100, PaymentStatus := "Pending",
    BookingStatus := "Confirmed", passengers := [stalePassenger] }

def staleDB : DB :=
  { airports := [], aircrafts := [], flights := [], inventories := [staleInventory],
    users := [], bookings := [staleBooking], nextFlightID := 2, nextInventoryID := 2,
    nextUserID := 2, nextBookingID := 2, nextPassengerID := 2 }

/-- The state `cancel_booking` produces from `staleDB`: `SeatsBooked = -1`. -/
def staleDB2 : DB :=
  { staleDB with
    inventories := [{ staleInventory with SeatsBooked := -1 }]
    bookings := [{ staleBooking with BookingStatus := "Cancelled" }] }

theorem cancel_staleDB :
    cancel_booking staleDB 1 "ABC123" = (.ok (cancelledBooking staleBooking), staleDB2) := by
  unfold cancel_booking
  rw [toUpper_asMap "ABC123"]
  rfl

/-- C2 (counterexample): the claim quantifies over every state in which the
plain counter invariant `0 ≤ SeatsBooked ≤ TotalSeats` holds.  `staleDB`
satisfies it, a single `cancel_booking` operation of the system completes
from it, and afterwards the invariant is violated (`SeatsBooked = -1`): the
bare invariant is not inductive for the code's transactions. -/
theorem claim2_counterexample :
    InvariantHolds staleDB ∧
    Step staleDB (cancel_booking staleDB 1 "ABC123").2 ∧
    ¬ InvariantHolds (cancel_booking staleDB 1 "ABC123").2 := by
  refine ⟨by decide, Step.cancelBooking staleDB 1 "ABC123", ?_⟩
  rw [cancel_staleDB]
  decide

/-- C2 (amended): from any state whose inventory counters are consistent with
the stored bookings — in particular from any state the system itself built,
such as an empty store — every reachable state satisfies
`0 ≤ SeatsBooked ≤ TotalSeats` for every `FlightInventory` row, after each
completed operation (booking creation/cancellation, flight
creation/update). -/
theorem claim2_seats_invariant (db0 db : DB) (h0 : Consistent db0)
    (hreach : Relation.ReflTransGen Step db0 db) : InvariantHolds db := by
  have hcons : Consistent db := by
    induction hreach with
    | refl => exact h0
    | tail _ hstep ih => exact consistent_step ih hstep
  exact consistent_invariant hcons

/-- The store before any operation has run. -/
def emptyDB : DB :=
  { airports := [], aircrafts := [], flights := [], inventories := [], users := [],
    bookings := [], nextFlightID := 1, nextInventoryID := 1, nextUserID := 1,
    nextBookingID := 1, nextPassengerID := 1 }

theorem consistent_emptyDB : Consistent emptyDB := by
  constructor <;> simp [emptyDB]

/-- One economy class of five seats, as a flight-creation request item. -/
def economyClass : InventoryCreate :=
  { ClassCode := "Y", BaseFare := 100, TotalSeats := 5, IsRefundable := true }

instance : DecidablePred inventoryCreateValid := fun _ =>
  inferInstanceAs (Decidable (_ ∧ _))

/-- A valid flight-creation request with one economy class of five seats. -/
def flightRequest : FlightCreate :=
  { FlightNumber := "XX100", DepartureAirportID := 1, ArrivalAirportID := 2,
    AircraftID := 1, DepartureDateTime := ⟨"2025-06-01", "10:00", "+00:00"⟩,
    ArrivalDateTime := ⟨"2025-06-01", "20:00", "+00:00"⟩, BasePrice := 500,
    Status := "Scheduled",
    inventory_items := [economyClass] }

theorem claim2_seats_invariant_witness :
    InvariantHolds (create_flight emptyDB flightRequest).2 :=
  claim2_seats_invariant emptyDB (create_flight emptyDB flightRequest).2
    consistent_emptyDB
    (Relation.ReflTransGen.single
      (Step.createFlight emptyDB flightRequest (by decide)))

/-- C1: for a booking request all of whose passengers name the same, existing
inventory class: when the row's available seats `TotalSeats - SeatsBooked`
are strictly fewer than the passenger count, `create_booking` fails with the
capacity error and the database is unchanged; otherwise it succeeds with a
booking whose status is `Confirmed` and payment status `Pending`, carrying
one passenger row per input passenger, appends exactly that booking, and
increments the targeted row's `SeatsBooked` by exactly the passenger count
while every other row and table is untouched. -/
theorem claim1_create_booking_capacity_and_writes (db : DB) (userID : Nat)
    (bookingIn : BookingCreate) (pnr now : String) (p0 : PassengerCreate)
    (rest : List PassengerCreate) (inv : FlightInventory)
    (hps : bookingIn.passengers = p0 :: rest)
    (hsame : ∀ x ∈ bookingIn.passengers, x.InventoryID = p0.InventoryID)
    (hfind : db.inventories.find? (fun v => v.InventoryID == p0.InventoryID) = some inv) :
    (inv.TotalSeats - inv.SeatsBooked < (bookingIn.passengers.length : Int) →
      create_booking db userID bookingIn pnr now =
        (.error ⟨400, "Only " ++ toString (inv.TotalSeats - inv.SeatsBooked) ++
          " seats left!"⟩, db)) ∧
    (¬ inv.TotalSeats - inv.SeatsBooked < (bookingIn.passengers.length : Int) →
      (newBooking db userID bookingIn pnr now inv).BookingStatus = "Confirmed" ∧
      (newBooking db userID bookingIn pnr now inv).PaymentStatus = "Pending" ∧
      (newBooking db userID bookingIn pnr now inv).passengers.length =
        bookingIn.passengers.length ∧
      ∃ l1 l2, db.inventories = l1 ++ inv :: l2 ∧
        create_booking db userID bookingIn pnr now =
          (.ok (newBooking db userID bookingIn pnr now inv),
            { db with
              bookings := db.bookings ++ [newBooking db userID bookingIn pnr now inv]
              inventories := l1 ++
                { inv with SeatsBooked :=
                    inv.SeatsBooked + (bookingIn.passengers.length : Int) } :: l2
              nextBookingID := db.nextBookingID + 1
              nextPassengerID := db.nextPassengerID + bookingIn.passengers.length })) := by
  have hded : ¬ ((bookingIn.passengers.map (·.InventoryID)).dedup).length > 1 := by
    have hle : ((bookingIn.passengers.map (·.InventoryID)).dedup).length ≤ 1 :=
      dedup_length_le_one_of_all_eq (t := p0.InventoryID) fun a ha => by
        obtain ⟨x, hx, rfl⟩ := List.mem_map.mp ha
        exact hsame x hx
    omega
  constructor
  · intro hcap
    exact create_booking_capacity_error db userID bookingIn pnr now hded hps hfind hcap
  · intro hcap
    obtain ⟨l1, l2, hdec, hfalse, hpx, hupd⟩ := find?_decomp hfind
    refine ⟨rfl, rfl, mkPassengers_length _ _ _ _ _, l1, l2, hdec, ?_⟩
    rw [create_booking_success db userID bookingIn pnr now hded hps hfind hcap, hupd]

/-- One booking-request passenger targeting inventory class 1. -/
def janePax : PassengerCreate :=
  { FirstName := "Jane", LastName := "Doe", DateOfBirth := "1990-01-01",
    PassportNumber := none, SeatNumber := none, InventoryID := 1 }

def onePaxRequest : BookingCreate := ⟨[janePax]⟩

/-- An inventory class with two open seats. -/
def openInventory : FlightInventory :=
  { InventoryID := 1, FlightID := 1, ClassCode := "Y", BaseFare := 100,
    TotalSeats := 2, SeatsBooked := 0, IsRefundable := true }

def openDB : DB :=
  { airports := [], aircrafts := [], flights := [], inventories := [openInventory],
    users := [], bookings := [], nextFlightID := 2, nextInventoryID := 2,
    nextUserID := 1, nextBookingID := 1, nextPassengerID := 1 }

theorem claim1_witness :
    create_booking soldOutDB 1 onePaxRequest "PNR001" "t0" =
      (.error ⟨400, "Only 0 seats left!"⟩, soldOutDB) ∧
    (create_booking openDB 1 onePaxRequest "PNR001" "t0").1 =
      .ok (newBooking openDB 1 onePaxRequest "PNR001" "t0" openInventory) := by
  constructor
  · exact ((claim1_create_booking_capacity_and_writes soldOutDB 1 onePaxRequest "PNR001"
      "t0" janePax [] fullInventory rfl (by decide) (by decide)).1 (by decide)).trans rfl
  · obtain ⟨-, -, -, l1, l2, -, heq⟩ :=
      (claim1_create_booking_capacity_and_writes openDB 1 onePaxRequest "PNR001" "t0"
        janePax [] openInventory rfl (by decide) (by decide)).2 (by decide)
    rw [heq]

/-- C4: a booking request whose passengers name more than one distinct
`InventoryID` is rejected with the single-flight validation error and the
database is unchanged (no booking, passenger, or inventory write). -/
theorem claim4_mixed_class_rejected (db : DB) (userID : Nat)
    (bookingIn : BookingCreate) (pnr now : String)
    (hded : ((bookingIn.passengers.map (·.InventoryID)).dedup).length > 1) :
    create_booking db userID bookingIn pnr now =
      (.error ⟨400, "All passengers in a single booking must be on the same flight/class"⟩,
        db) :=
  create_booking_mixed_class db userID bookingIn pnr now hded

def mixedRequest : BookingCreate := ⟨[janePax, { janePax with InventoryID := 2 }]⟩

theorem claim4_witness :
    create_booking openDB 1 mixedRequest "PNR002" "t0" =
      (.error ⟨400, "All passengers in a single booking must be on the same flight/class"⟩,
        openDB) :=
  claim4_mixed_class_rejected openDB 1 mixedRequest "PNR002" "t0" (by decide)

/-- C3: cancelling an owned, `Confirmed` booking whose passengers reference an
existing inventory row decrements that row's `SeatsBooked` by exactly the
booking's passenger count and flips the booking status to `Cancelled`; a
second cancellation of the same booking is rejected with the
already-cancelled error and leaves the database — in particular
`SeatsBooked` — unchanged. -/
theorem claim3_cancel_and_cancel_again (db : DB) (userID : Nat) (pnr : String)
    (b : Booking) (p0 : Passenger) (prest : List Passenger) (invr : FlightInventory)
    (hfind : db.bookings.find? (fun x => x.PNR == pnr.toUpper && x.UserID == userID) = some b)
    (hconf : b.BookingStatus = "Confirmed")
    (hp : b.passengers = p0 :: prest)
    (hinv : db.inventories.find? (fun v => v.InventoryID == p0.InventoryID) = some invr) :
    ∃ l1 l2, db.inventories = l1 ++ invr :: l2 ∧
      cancel_booking db userID pnr =
        (.ok (cancelledBooking b),
          { db with
            inventories := l1 ++
              { invr with SeatsBooked :=
                  invr.SeatsBooked - (b.passengers.length : Int) } :: l2
            bookings :=
              updateFirst (fun x => x.PNR == pnr.toUpper && x.UserID == userID)
                (fun x => { x with BookingStatus := "Cancelled" }) db.bookings }) ∧
      (cancelledBooking b).BookingStatus = "Cancelled" ∧
      cancel_booking (cancel_booking db userID pnr).2 userID pnr =
        (.error ⟨400, "Booking is already cancelled"⟩,
          (cancel_booking db userID pnr).2) := by
  have hstat : b.BookingStatus ≠ "Cancelled" := by
    rw [hconf]
    decide
  obtain ⟨l1, l2, hdec, hfalse, hpx, hupd⟩ := find?_decomp hinv
  have hmain := cancel_booking_success_inventory db userID pnr hfind hstat hp hinv
  refine ⟨l1, l2, hdec, ?_, rfl, ?_⟩
  · rw [hmain, hupd]
  · have hsecond : (cancel_booking db userID pnr).2.bookings.find?
        (fun x => x.PNR == pnr.toUpper && x.UserID == userID) =
          some (cancelledBooking b) := by
      rw [hmain]
      obtain ⟨m1, m2, hdecB, hfalseB, hpredb, hupdB⟩ := find?_decomp hfind
      rw [hupdB]
      apply find?_of_front_false hfalseB
      simpa using hpredb
    exact cancel_booking_already_cancelled _ userID pnr hsecond rfl

/-- The booking table of C3's concrete run: one confirmed booking of one
passenger against a class holding one of its two seats. -/
def bookedInventory : FlightInventory :=
  { InventoryID := 1, FlightID := 1, ClassCode := "Y", BaseFare := 100,
    TotalSeats := 2, SeatsBooked := 1, IsRefundable := true }

def bookedPassenger : Passenger :=
  { PassengerID := 1, BookingID := 1, InventoryID := 1, FirstName := "Jane",
    LastName := "Doe", DateOfBirth := "1990-01-01", PassportNumber := none,
    SeatNumber := some "1A" }

def bookedBooking : Booking :=
  { BookingID := 1, PNR := "PNRAAA", UserID := 1, FlightID := 1,
    BookingDate := "t0", TotalAmount := 100, PaymentStatus := "Pending",
    BookingStatus := "Confirmed", passengers := [bookedPassenger] }

def bookedDB : DB :=
  { airports := [], aircrafts := [], flights := [], inventories := [bookedInventory],
    users := [], bookings := [bookedBooking], nextFlightID := 2, nextInventoryID := 2,
    nextUserID := 1, nextBookingID := 2, nextPassengerID := 2 }

theorem claim3_witness :
    cancel_booking (cancel_booking bookedDB 1 "PNRAAA").2 1 "PNRAAA" =
      (.error ⟨400, "Booking is already cancelled"⟩,
        (cancel_booking bookedDB 1 "PNRAAA").2) := by
  obtain ⟨l1, l2, hdec, hmain, hflip, hsecond⟩ :=
    claim3_cancel_and_cancel_again bookedDB 1 "PNRAAA" bookedBooking bookedPassenger []
      bookedInventory (by rw [toUpper_asMap]; rfl) rfl rfl rfl
  exact hsecond

/-- C10: cancelling an owned, non-cancelled booking whose passenger list is
empty, or whose passengers reference a `FlightInventory` row that does not
exist, still succeeds: the booking's status becomes `Cancelled`, and no
inventory row is written. -/
theorem claim10_cancel_without_inventory_write (db : DB) (userID : Nat) (pnr : String)
    (b : Booking)
    (hfind : db.bookings.find? (fun x => x.PNR == pnr.toUpper && x.UserID == userID) = some b)
    (hstat : b.BookingStatus ≠ "Cancelled")
    (hp : b.passengers = [] ∨ ∃ p0 prest, b.passengers = p0 :: prest ∧
      db.inventories.find? (fun v => v.InventoryID == p0.InventoryID) = none) :
    cancel_booking db userID pnr =
      (.ok (cancelledBooking b),
        { db with
          bookings :=
            updateFirst (fun x => x.PNR == pnr.toUpper && x.UserID == userID)
              (fun x => { x with BookingStatus := "Cancelled" }) db.bookings }) ∧
    (cancel_booking db userID pnr).2.inventories = db.inventories ∧
    (cancelledBooking b).BookingStatus = "Cancelled" := by
  have h := cancel_booking_success_no_inventory db userID pnr hfind hstat hp
  exact ⟨h, by rw [h], rfl⟩

/-- A confirmed booking with no passenger rows at all. -/
def hollowBooking : Booking :=
  { BookingID := 1, PNR := "PNRBBB", UserID := 1, FlightID := 1,
    BookingDate := "t0", TotalAmount := 0, PaymentStatus := "Pending",
    BookingStatus := "Confirmed", passengers := [] }

def hollowDB : DB :=
  { airports := [], aircrafts := [], flights := [], inventories := [openInventory],
    users := [], bookings := [hollowBooking], nextFlightID := 2, nextInventoryID := 2,
    nextUserID := 1, nextBookingID := 2, nextPassengerID := 1 }

theorem claim10_witness :
    (cancel_booking hollowDB 1 "PNRBBB").2.inventories = hollowDB.inventories ∧
    (cancel_booking hollowDB 1 "PNRBBB").1 = .ok (cancelledBooking hollowBooking) := by
  have h := claim10_cancel_without_inventory_write hollowDB 1 "PNRBBB" hollowBooking
    (by rw [toUpper_asMap]; rfl) (by decide) (Or.inl rfl)
  exact ⟨h.2.1, by rw [h.1]⟩

/-- C6 (code evaluation): the admin-only authorization step never admits any
user and never produces the 403 authorization error: because `models.User`
declares no `IsAdmin` column, the attribute access in `get_admin_user`
raises `AttributeError` — a 500 server error — for every user, admin intent
or not. -/
theorem claim6_admin_check_attribute_error (u : User) :
    get_admin_user u = .error ⟨500, "AttributeError: IsAdmin"⟩ := rfl

/-- C7 (code evaluation): in any environment that does not define a variable
literally named `HS256` (the slip in `dependencies.py`, which reads
`os.getenv("HS256")` instead of using the literal `"HS256"`), a login with
correct credentials succeeds and returns a token, yet presenting that token
to `get_current_user` is always rejected with the 401 credentials error:
`jwt.decode` permits no algorithm, so no token — however fresh and
well-signed — ever resolves to a user. -/
theorem claim7_token_roundtrip_rejected (env : String → Option String)
    (bcrypt : String → String → String) (db : DB) (username password : String)
    (u : User) (now now2 : Nat)
    (halg : env "HS256" = none)
    (hfind : db.users.find? (fun x => x.Email == username) = some u)
    (hverify : verify_password bcrypt password u.HashedPassword = true) :
    login_for_access_token bcrypt env now db username password =
      .ok (create_access_token env now [("sub", u.Email)]) ∧
    get_current_user env now2 (create_access_token env now [("sub", u.Email)]) db =
      .error credentialsException := by
  constructor
  · unfold login_for_access_token
    rw [hfind]
    simp [hverify]
  · unfold get_current_user jwt_decode
    simp [halg, create_access_token, usersAlgorithm, depsAlgorithm]

def envEmpty : String → Option String := fun _ => none

def bcryptToy : String → String → String := fun salt pw => salt ++ ":" ++ pw

def aliceHash : BcryptHash := ⟨"s1", "s1:pw12345"⟩

def alice : User :=
  { UserID := 1, Email := "alice@example.com", HashedPassword := aliceHash,
    FirstName := "Alice", LastName := "Ab", PhoneNumber := none, DateOfBirth := none,
    CreatedDate := "2025-01-01" }

def userDB : DB :=
  { airports := [], aircrafts := [], flights := [], inventories := [], users := [alice],
    bookings := [], nextFlightID := 1, nextInventoryID := 1, nextUserID := 2,
    nextBookingID := 1, nextPassengerID := 1 }

theorem claim7_witness :
    login_for_access_token bcryptToy envEmpty 0 userDB "alice@example.com" "pw12345" =
      .ok (create_access_token envEmpty 0 [("sub", alice.Email)]) ∧
    get_current_user envEmpty 0 (create_access_token envEmpty 0 [("sub", alice.Email)])
      userDB = .error credentialsException :=
  claim7_token_roundtrip_rejected envEmpty bcryptToy userDB "alice@example.com"
    "pw12345" alice 0 0 rfl (by decide) (by decide)

/-- C8: registering with an email that exactly (case-sensitively) matches an
existing user's fails with the duplicate-email error and writes nothing;
otherwise exactly one user row is appended, storing the salted bcrypt hash
of the submitted password (the output of `get_password_hash`), never the raw
password. -/
theorem claim8_register_duplicate_email (bcrypt : String → String → String)
    (db : DB) (user_data : UserCreate) (salt now : String) :
    ((∃ u ∈ db.users, u.Email = user_data.Email) →
      register_user bcrypt db user_data salt now =
        (.error ⟨400, "Email already registered"⟩, db)) ∧
    ((∀ u ∈ db.users, u.Email ≠ user_data.Email) →
      ∃ nu, register_user bcrypt db user_data salt now =
          (.ok nu, { db with users := db.users ++ [nu], nextUserID := db.nextUserID + 1 }) ∧
        nu.Email = user_data.Email ∧
        nu.HashedPassword = get_password_hash bcrypt salt user_data.Password) := by
  constructor
  · rintro ⟨u, hu, heq⟩
    unfold register_user
    cases hf : db.users.find? (fun x => x.Email == user_data.Email) with
    | none => exact absurd (by simp [heq]) (List.find?_eq_none.mp hf u hu)
    | some x => rfl
  · intro hall
    have hf : db.users.find? (fun x => x.Email == user_data.Email) = none :=
      List.find?_eq_none.mpr fun x hx => by simp [hall x hx]
    refine ⟨{ UserID := db.nextUserID
              Email := user_data.Email
              HashedPassword := get_password_hash bcrypt salt user_data.Password
              FirstName := user_data.FirstName
              LastName := user_data.LastName
              PhoneNumber := user_data.PhoneNumber
              DateOfBirth := user_data.DateOfBirth
              CreatedDate := now }, ?_, rfl, rfl⟩
    unfold register_user
    rw [hf]

def bobRequest : UserCreate :=
  { Email := "bob@example.com", Password := "hunter22", FirstName := "Bob",
    LastName := "Bb", PhoneNumber := none, DateOfBirth := none }

def aliceRequest : UserCreate :=
  { Email := "alice@example.com", Password := "pw12345", FirstName := "Alice",
    LastName := "Ab", PhoneNumber := none, DateOfBirth := none }

theorem claim8_witness :
    register_user bcryptToy userDB aliceRequest "s2" "t1" =
      (.error ⟨400, "Email already registered"⟩, userDB) ∧
    ∃ nu, register_user bcryptToy userDB bobRequest "s2" "t1" =
        (.ok nu,
          { userDB with
            users := userDB.users ++ [nu]
            nextUserID := userDB.nextUserID + 1 }) ∧
      nu.Email = bobRequest.Email ∧
      nu.HashedPassword = get_password_hash bcryptToy "s2" bobRequest.Password := by
  constructor
  · exact (claim8_register_duplicate_email bcryptToy userDB aliceRequest "s2" "t1").1
      ⟨alice, by decide, rfl⟩
  · exact (claim8_register_duplicate_email bcryptToy userDB bobRequest "s2" "t1").2
      (by decide)

/-- C9: `gen_seat_label n` (for natural `n`) is the decimal representation of
`n / 6 + 1` followed by the `(n % 6)`-th letter of `A,B,C,D,E,F`; a
successful booking against an inventory row whose `SeatsBooked` was `s` at
booking time assigns the `i`-th input passenger (0-based) the seat
`gen_seat_label (s + i)`; hence the labels within one booking are pairwise
distinct. -/
theorem claim9_seat_label_assignment (db : DB) (userID : Nat)
    (bookingIn : BookingCreate) (pnr now : String) (p0 : PassengerCreate)
    (rest : List PassengerCreate) (inv : FlightInventory)
    (hps : bookingIn.passengers = p0 :: rest)
    (hsame : ∀ x ∈ bookingIn.passengers, x.InventoryID = p0.InventoryID)
    (hfind : db.inventories.find? (fun v => v.InventoryID == p0.InventoryID) = some inv)
    (hcap : ¬ inv.TotalSeats - inv.SeatsBooked < (bookingIn.passengers.length : Int))
    (hsb : 0 ≤ inv.SeatsBooked) :
    (∀ n : Nat, gen_seat_label (n : Int) =
      Nat.repr (n / 6 + 1) ++ ["A", "B", "C", "D", "E", "F"].getD (n % 6) "") ∧
    (create_booking db userID bookingIn pnr now).1 =
      .ok (newBooking db userID bookingIn pnr now inv) ∧
    (newBooking db userID bookingIn pnr now inv).passengers.map (·.SeatNumber) =
      (List.range bookingIn.passengers.length).map
        (fun (i : Nat) => some (gen_seat_label (inv.SeatsBooked + (i : Int)))) ∧
    ((newBooking db userID bookingIn pnr now inv).passengers.map (·.SeatNumber)).Nodup := by
  have hded : ¬ ((bookingIn.passengers.map (·.InventoryID)).dedup).length > 1 := by
    have hle : ((bookingIn.passengers.map (·.InventoryID)).dedup).length ≤ 1 :=
      dedup_length_le_one_of_all_eq (t := p0.InventoryID) fun a ha => by
        obtain ⟨x, hx, rfl⟩ := List.mem_map.mp ha
        exact hsame x hx
    omega
  have hlabels : (newBooking db userID bookingIn pnr now inv).passengers.map (·.SeatNumber) =
      (List.range bookingIn.passengers.length).map
        (fun (i : Nat) => some (gen_seat_label (inv.SeatsBooked + (i : Int)))) := by
    rw [show (newBooking db userID bookingIn pnr now inv).passengers =
      mkPassengers db.nextBookingID inv.SeatsBooked db.nextPassengerID 0
        bookingIn.passengers from rfl]
    rw [mkPassengers_seat_labels]
    apply List.map_congr_left
    intro i _
    norm_num
  refine ⟨gen_seat_label_nat, ?_, hlabels, ?_⟩
  · rw [create_booking_success db userID bookingIn pnr now hded hps hfind hcap]
  · rw [hlabels]
    obtain ⟨s, hs⟩ : ∃ s : Nat, inv.SeatsBooked = (s : Int) :=
      ⟨inv.SeatsBooked.toNat, (Int.toNat_of_nonneg hsb).symm⟩
    refine List.Nodup.map_on ?_ (List.nodup_range _)
    intro i hi j hj heq
    have heq2 := Option.some.inj heq
    rw [hs, show ((s : Int) + (i : Int)) = ((s + i : Nat) : Int) by push_cast; ring,
      show ((s : Int) + (j : Int)) = ((s + j : Nat) : Int) by push_cast; ring] at heq2
    have := gen_seat_label_nat_inj heq2
    omega

def twoPaxRequest : BookingCreate := ⟨[janePax, { janePax with FirstName := "John" }]⟩

theorem claim9_witness :
    (newBooking openDB 1 twoPaxRequest "PNR003" "t0" openInventory).passengers.map
        (·.SeatNumber) = [some "1A", some "1B"] := by
  have h := (claim9_seat_label_assignment openDB 1 twoPaxRequest "PNR003" "t0" janePax
    [{ janePax with FirstName := "John" }] openInventory rfl (by decide) (by decide)
    (by decide) (by decide)).2.2.1
  rw [h]
  rfl

end AirlineBooking
